import Mathlib

/-!
Formal model of the solar-system data pipeline
(`parse_solar_system_data.py`): the period parser, the parent
resolver, the row transformer, the record collection and its JSON
serialization.  Numeric cell values are modelled as exact rationals
(`ℚ`); a raised Python exception is modelled as `Except.error ()`.
-/

deriving instance DecidableEq for Except

namespace SolarSystem

/-- A Python value as it occurs in the script's dictionaries:
strings, numbers (modelled as exact rationals), booleans and `None`. -/
inductive Value where
  | str : String → Value
  | num : ℚ → Value
  | bool : Bool → Value
  | null : Value
deriving DecidableEq, Repr

/-- Test `isPre pat s` : `pat` is a prefix of the character list `s`. -/
def isPre : List Char → List Char → Bool
  | [], _ => true
  | _ :: _, [] => false
  | p :: ps, c :: cs => p = c && isPre ps cs

/-- Test `subList pat s` : `pat` occurs as a contiguous sublist of `s`
(Python's `pat in s` on strings). -/
def subList (pat : List Char) : List Char → Bool
  | [] => isPre pat []
  | c :: cs => isPre pat (c :: cs) || subList pat cs

/-- Python's substring test `pat in s`. -/
def strContains (s pat : String) : Bool := subList pat.toList s.toList

/-- Characters matched by the script's regex character class `[\d.]`
(a decimal digit or a dot). -/
def isNumChar (c : Char) : Bool := c.isDigit || c = '.'

/-- Accumulator pass splitting a character list into the maximal runs
of `[\d.]` characters, in order (the behaviour of
`re.findall` with the pattern `[\d.]+`). -/
def numRunsAux : List Char → List Char → List (List Char)
  | [], acc => if acc = [] then [] else [acc.reverse]
  | c :: cs, acc =>
    if isNumChar c then numRunsAux cs (c :: acc)
    else if acc = [] then numRunsAux cs []
    else acc.reverse :: numRunsAux cs []

/-- Model of `re.findall` with the pattern `[\d.]+` : all maximal runs of digits-and-dots
characters in `s`. -/
def findNumbers (s : String) : List String :=
  (numRunsAux s.toList []).map fun cs => String.mk cs

/-- Decimal value of a digit list (most significant first). -/
def digitsVal (cs : List Char) : Nat := cs.foldl (fun a c => 10 * a + (c.toNat - 48)) 0

/-- The digit content of a digits-and-dots string: integer part,
fractional part and number of fractional digits, or `none` when
Python's `float` would reject the string (more than one dot, or no
digit at all, as in `float` of `"."` or of `"1.2.3"`). -/
def pyFloatParts (s : String) : Option (Nat × Nat × Nat) :=
  let cs := s.toList
  if cs.count '.' = 0 then
    if cs.any Char.isDigit then some (digitsVal cs, 0, 0) else none
  else if cs.count '.' = 1 then
    if cs.any Char.isDigit then
      let intPart := cs.takeWhile (fun c => c ≠ '.')
      let fracPart := (cs.dropWhile (fun c => c ≠ '.')).drop 1
      some (digitsVal intPart, digitsVal fracPart, fracPart.length)
    else none
  else none

/-- Python's `float(s)` restricted to strings consisting of digits and
dots (the only strings the script feeds it, coming from
`re.findall`): it succeeds exactly when the string has
at most one dot and at least one digit, and returns the exact decimal
value; otherwise (`float` of `"."`, of `"1.2.3"`, ...) it raises
`ValueError`, modelled as `none`. -/
def pyFloat (s : String) : Option ℚ :=
  (pyFloatParts s).map fun p => (p.1 : ℚ) + (p.2.1 : ℚ) / (10 : ℚ) ^ p.2.2

/-- Function `parse_period` from the script.  `none` input models a `NaN` cell
(`pd.isna`).  The result is `.error ()` when `float(numbers[0])`
raises `ValueError`, `.ok none` for the absence marker, and
`.ok (some v)` for a parsed day count `v`. -/
def parse_period (cell : Option String) : Except Unit (Option ℚ) :=
  match cell with
  | none => .ok none
  | some period_str =>
    match findNumbers period_str with
    | [] => .ok none
    | n :: _ =>
      match pyFloat n with
      | none => .error ()
      | some value =>
        .ok (some (
          if strContains period_str "час" || strContains period_str "ч" then
            value / 24
          else if strContains period_str "дней" || strContains period_str "суток" ||
              strContains period_str "д" then
            value
          else if strContains period_str "лет" || strContains period_str "год" then
            value * (365.25 : ℚ)
          else if strContains period_str "месяц" then
            value * (30.44 : ℚ)
          else
            value))

/-- A source-table row after column renaming, with spreadsheet cells
modelled as `Option` values (`none` is an empty cell, `pd.isna`). -/
structure Row where
  name : Option String
  type : Option String
  diameter_km : Option ℚ
  atmosphere_pressure_bar : Option ℚ
  rotation_period : Option String
  orbital_period : Option String
  min_temp_c : Option ℚ
  max_temp_c : Option ℚ
  terminator_temp_c : Option ℚ
  terminator_width_km : Option ℚ
deriving DecidableEq, Repr

/-- Python's `str(cell)`: an empty cell is the float `nan`, whose
`str` is the text `"nan"`. -/
def strOfCell : Option String → String
  | none => "nan"
  | some s => s

/-- Function `get_parent` from the script: first-match substring search over
the moon-category markers, then the exact planet / dwarf-planet
fallback to `"sun"`, else `None`. -/
def get_parent (row : Row) : Option String :=
  let type_str := strOfCell row.type
  if strContains type_str "Спутник Земли" then some "earth"
  else if strContains type_str "Спутник Марса" then some "mars"
  else if strContains type_str "Спутник Юпитера" then some "jupiter"
  else if strContains type_str "Спутник Сатурна" then some "saturn"
  else if strContains type_str "Спутник Урана" then some "uranus"
  else if strContains type_str "Спутник Нептуна" then some "neptune"
  else if strContains type_str "Спутник Плутона" then some "pluto"
  else if type_str = "Планета" ∨ type_str = "Карликовая планета" then some "sun"
  else none

/-- A Python dictionary with string keys, as an insertion-ordered
association list (the script's dicts never hold duplicate keys). -/
abbrev Dict (α : Type) := List (String × α)

/-- A `CelestialBody` record: a Python dict of `Value`s. -/
abbrev Record := Dict Value

/-- The output collection `celestial_bodies`. -/
abbrev Collection := Dict Record

/-- Python dict read `d.get(k)`: the value at the first (only)
occurrence of `k`. -/
def lookup {α : Type} (d : Dict α) (k : String) : Option α :=
  (d.find? fun p => p.1 = k).map fun p => p.2

/-- Python dict write `d[k] = v`: replace the value at an existing
key in place, else append the new pair. -/
def dictSet {α : Type} : Dict α → String → α → Dict α
  | [], k, v => [(k, v)]
  | p :: rest, k, v => if p.1 = k then (k, v) :: rest else p :: dictSet rest k v

/-- Python `d.update(e)`: write every pair of `e` into `d`, in order;
on a key collision the value from `e` wins. -/
def dictUpdate {α : Type} (d e : Dict α) : Dict α :=
  e.foldl (fun acc p => dictSet acc p.1 p.2) d

/-- The static orbital-element reference table `orbital_params`. -/
def orbital_params : Dict Record := [
  ("mercury", [("semi_major_axis", .num (0.387098 : ℚ)), ("eccentricity", .num (0.205630 : ℚ)),
    ("inclination", .num (7.005 : ℚ)), ("axial_tilt", .num (0.034 : ℚ))]),
  ("venus", [("semi_major_axis", .num (0.723332 : ℚ)), ("eccentricity", .num (0.006772 : ℚ)),
    ("inclination", .num (3.39458 : ℚ)), ("axial_tilt", .num (177.36 : ℚ))]),
  ("earth", [("semi_major_axis", .num (1.000001018 : ℚ)), ("eccentricity", .num (0.0167086 : ℚ)),
    ("inclination", .num (0.00005 : ℚ)), ("axial_tilt", .num (23.4392811 : ℚ))]),
  ("mars", [("semi_major_axis", .num (1.523679 : ℚ)), ("eccentricity", .num (0.0934 : ℚ)),
    ("inclination", .num (1.85 : ℚ)), ("axial_tilt", .num (25.19 : ℚ))]),
  ("jupiter", [("semi_major_axis", .num (5.2044 : ℚ)), ("eccentricity", .num (0.0489 : ℚ)),
    ("inclination", .num (1.303 : ℚ)), ("axial_tilt", .num (3.13 : ℚ))]),
  ("saturn", [("semi_major_axis", .num (9.5826 : ℚ)), ("eccentricity", .num (0.0565 : ℚ)),
    ("inclination", .num (2.485 : ℚ)), ("axial_tilt", .num (26.73 : ℚ))]),
  ("uranus", [("semi_major_axis", .num (19.2184 : ℚ)), ("eccentricity", .num (0.046381 : ℚ)),
    ("inclination", .num (0.773 : ℚ)), ("axial_tilt", .num (97.77 : ℚ))]),
  ("neptune", [("semi_major_axis", .num (30.07 : ℚ)), ("eccentricity", .num (0.0113 : ℚ)),
    ("inclination", .num (1.767975 : ℚ)), ("axial_tilt", .num (28.32 : ℚ))]),
  ("pluto", [("semi_major_axis", .num (39.482 : ℚ)), ("eccentricity", .num (0.2488 : ℚ)),
    ("inclination", .num (17.16 : ℚ)), ("axial_tilt", .num (122.53 : ℚ))]),
  ("moon", [("semi_major_axis", .num 384400), ("eccentricity", .num (0.0549 : ℚ)),
    ("inclination", .num (5.145 : ℚ)), ("axial_tilt", .num (1.5424 : ℚ)),
    ("is_distance_km", .bool true)])]

/-- The fixed Russian-to-English name table `name_translations`. -/
def name_translations : Dict String := [
  ("Меркурий", "mercury"), ("Венера", "venus"), ("Земля", "earth"), ("Луна", "moon"),
  ("Марс", "mars"), ("Фобос", "phobos"), ("Деймос", "deimos"), ("Юпитер", "jupiter"),
  ("Ио", "io"), ("Европа", "europa"), ("Ганимед", "ganymede"), ("Каллисто", "callisto"),
  ("Сатурн", "saturn"), ("Мимас", "mimas"), ("Энцелад", "enceladus"), ("Тефия", "tethys"),
  ("Диона", "dione"), ("Рея", "rhea"), ("Титан", "titan"), ("Япет", "iapetus"),
  ("Уран", "uranus"), ("Миранда", "miranda"), ("Ариэль", "ariel"), ("Умбриэль", "umbriel"),
  ("Титания", "titania"), ("Оберон", "oberon"), ("Нептун", "neptune"), ("Тритон", "triton"),
  ("Плутон", "pluto"), ("Харон", "charon")]

/-- Python's `str.lower` (the script only ever observes it on ASCII
identifiers, so the ASCII case map is used). -/
def pyLower (s : String) : String := String.mk (s.toList.map Char.toLower)

/-- Python's `str.upper` (ASCII case map, as for `pyLower`). -/
def pyUpper (s : String) : String := String.mk (s.toList.map Char.toUpper)

/-- Helper for Python's `str.title`: uppercase a letter that follows
a non-letter, lowercase one that follows a letter. -/
def pyTitleAux : Bool → List Char → List Char
  | _, [] => []
  | prevAlpha, c :: cs =>
    (if prevAlpha then c.toLower else c.toUpper) :: pyTitleAux c.isAlpha cs

/-- Python's `str.title` (ASCII case map). -/
def pyTitle (s : String) : String := String.mk (pyTitleAux false s.toList)

/-- Lookup `name_translations.get` with the lower-cased fallback. -/
def nameEnOf (name_ru : String) : String :=
  match lookup name_translations name_ru with
  | some e => e
  | none => pyLower name_ru

/-- Value `.num` for a present cell, `.null` for an empty one
(`row[c] if pd.notna(row[c]) else None`). -/
def numOrNull : Option ℚ → Value
  | some v => .num v
  | none => .null

/-- Value `.num` for a present cell, `.num 0` for an empty one
(`row[c] if pd.notna(row[c]) else 0`). -/
def numOrZero : Option ℚ → Value
  | some v => .num v
  | none => .num 0

/-- The `body` dict literal built for one kept row (lines 136-151 of
the script), given the two already-parsed period values. -/
def bodyFields (row : Row) (name_ru name_en : String) (rot orb : Option ℚ) : Record := [
    ("id", .str name_en),
    ("name", .str name_ru),
    ("name_en", .str (pyTitle name_en)),
    ("type", .str (
      if name_en = "sun" then "star"
      else if row.type = some "Планета" then "planet"
      else if strContains (strOfCell row.type) "Карликовая" then "dwarf_planet"
      else "moon")),
    ("parent", match get_parent row with | some p => .str p | none => .null),
    ("radius_km", match row.diameter_km with | some d => .num (d / 2) | none => .null),
    ("diameter_km", numOrNull row.diameter_km),
    ("atmosphere_pressure_bar", numOrZero row.atmosphere_pressure_bar),
    ("rotation_period_days", numOrNull rot),
    ("orbital_period_days", numOrNull orb),
    ("min_temp_c", numOrNull row.min_temp_c),
    ("max_temp_c", numOrNull row.max_temp_c),
    ("terminator_temp_c", numOrNull row.terminator_temp_c),
    ("terminator_width_km", numOrNull row.terminator_width_km)]

/-- The `body` dict for one kept row, before the orbital-element
merge.  The two `parse_period` calls are evaluated first (in the
order they occur in the dict literal) and can raise. -/
def mkBody (row : Row) (name_ru name_en : String) : Except Unit Record :=
  match parse_period row.rotation_period with
  | .error e => .error e
  | .ok rot =>
    match parse_period row.orbital_period with
    | .error e => .error e
    | .ok orb => .ok (bodyFields row name_ru name_en rot orb)

/-- The record for one kept row after the conditional
`body.update(orbital_params[name_en])` merge. -/
def bodyOf (row : Row) (name_ru name_en : String) : Except Unit Record :=
  match mkBody row name_ru name_en with
  | .error e => .error e
  | .ok body =>
    match lookup orbital_params name_en with
    | some entry => .ok (dictUpdate body entry)
    | none => .ok body

/-- The footnote/section markers tested against the name text
(`"1."` through `"8."`). -/
def footnoteMarkers : List String := ["1.", "2.", "3.", "4.", "5.", "6.", "7.", "8."]

/-- One iteration of the row loop: skip the row (blank name, name
containing `"Примечания"`, or name containing a footnote marker) or
build its record and store it under the upper-cased identifier. -/
def processRow (db : Collection) (row : Row) : Except Unit Collection :=
  match row.name with
  | none => .ok db
  | some name_ru =>
    if strContains name_ru "Примечания" then .ok db
    else if footnoteMarkers.any (fun c => strContains name_ru c) then .ok db
    else
      match bodyOf row name_ru (nameEnOf name_ru) with
      | .error e => .error e
      | .ok body => .ok (dictSet db (pyUpper (nameEnOf name_ru)) body)

/-- The hand-authored record for the Sun (lines 161-174 of the
script).  Note that it has no `atmosphere_pressure_bar` key. -/
def sunRecord : Record := [
  ("id", .str "sun"),
  ("name", .str "Солнце"),
  ("name_en", .str "Sun"),
  ("type", .str "star"),
  ("parent", .null),
  ("radius_km", .num 695700),
  ("diameter_km", .num 1391400),
  ("rotation_period_days", .num (25.38 : ℚ)),
  ("axial_tilt", .num (7.25 : ℚ)),
  ("surface_temp_k", .num 5778),
  ("min_temp_c", .num 5505),
  ("max_temp_c", .num 5505)]

/-- The row loop `for idx, row in df.iterrows()`, threading the
in-progress collection; a raised exception aborts the whole run. -/
def processRows : Collection → List Row → Except Unit Collection
  | db, [] => .ok db
  | db, row :: rest =>
    match processRow db row with
    | .error e => .error e
    | .ok db' => processRows db' rest

/-- The whole pipeline on an in-memory table: the row loop followed by
the insertion of the Sun record. -/
def celestial_bodies (rows : List Row) : Except Unit Collection :=
  match processRows [] rows with
  | .error e => .error e
  | .ok db => .ok (dictSet db "SUN" sunRecord)

/-! ### Dictionary lemmas -/

lemma lookup_cons_self {α : Type} (k : String) (v : α) (rest : Dict α) :
    lookup ((k, v) :: rest) k = some v := by
  simp [lookup, List.find?]

lemma lookup_cons_ne {α : Type} (p : String × α) (rest : Dict α) (k : String)
    (h : ¬ p.1 = k) : lookup (p :: rest) k = lookup rest k := by
  simp [lookup, List.find?, h]

lemma lookup_dictSet_self {α : Type} (d : Dict α) (k : String) (v : α) :
    lookup (dictSet d k v) k = some v := by
  induction d with
  | nil => simp [dictSet, lookup, List.find?]
  | cons p rest ih =>
    simp only [dictSet]
    by_cases h : p.1 = k
    · simp [h, lookup, List.find?]
    · rw [if_neg h, lookup_cons_ne _ _ _ h]
      exact ih

lemma lookup_dictSet_ne {α : Type} (d : Dict α) (k q : String) (v : α)
    (h : ¬ q = k) : lookup (dictSet d k v) q = lookup d q := by
  induction d with
  | nil =>
    show lookup [(k, v)] q = lookup [] q
    exact lookup_cons_ne _ _ _ (fun hh => h hh.symm)
  | cons p rest ih =>
    simp only [dictSet]
    by_cases hp : p.1 = k
    · rw [if_pos hp]
      have hpq : ¬ p.1 = q := by rw [hp]; exact fun hh => h hh.symm
      rw [lookup_cons_ne (k, v) rest q (fun hh => h hh.symm), lookup_cons_ne _ _ _ hpq]
    · rw [if_neg hp]
      by_cases hq : p.1 = q
      · simp [lookup, List.find?, hq]
      · rw [lookup_cons_ne _ _ _ hq, lookup_cons_ne _ _ _ hq]
        exact ih

lemma lookup_eq_none_iff {α : Type} (d : Dict α) (k : String) :
    lookup d k = none ↔ k ∉ d.map Prod.fst := by
  induction d with
  | nil => simp [lookup, List.find?]
  | cons p rest ih =>
    by_cases hp : p.1 = k
    · simp [lookup, List.find?, hp]
    · rw [lookup_cons_ne _ _ _ hp, ih]
      simp only [List.map_cons, List.mem_cons]
      constructor
      · intro hk hor
        rcases hor with h1 | h2
        · exact hp h1.symm
        · exact hk h2
      · intro hk h2
        exact hk (Or.inr h2)

lemma lookup_dictUpdate_not_mem {α : Type} (e d : Dict α) (k : String)
    (h : k ∉ e.map Prod.fst) : lookup (dictUpdate d e) k = lookup d k := by
  induction e generalizing d with
  | nil => rfl
  | cons p rest ih =>
    simp only [List.map_cons, List.mem_cons] at h
    push_neg at h
    show lookup (dictUpdate (dictSet d p.1 p.2) rest) k = lookup d k
    rw [ih (dictSet d p.1 p.2) h.2]
    exact lookup_dictSet_ne d p.1 k p.2 h.1

lemma lookup_dictUpdate_mem {α : Type} (e d : Dict α) (k : String) (v : α)
    (hnd : (e.map Prod.fst).Nodup) (h : lookup e k = some v) :
    lookup (dictUpdate d e) k = some v := by
  induction e generalizing d with
  | nil => simp [lookup, List.find?] at h
  | cons p rest ih =>
    simp only [List.map_cons, List.nodup_cons] at hnd
    show lookup (dictUpdate (dictSet d p.1 p.2) rest) k = some v
    by_cases hp : p.1 = k
    · have hv : v = p.2 := by
        rw [← hp] at h
        rw [show lookup (p :: rest) p.1 = some p.2 from lookup_cons_self p.1 p.2 rest] at h
        exact (Option.some_inj.mp h).symm
      rw [hv, ← hp]
      rw [lookup_dictUpdate_not_mem rest _ p.1 hnd.1]
      exact lookup_dictSet_self _ _ _
    · rw [lookup_cons_ne _ _ _ hp] at h
      exact ih _ hnd.2 h

/-! ### Key-set and body-shape lemmas -/

lemma map_fst_dictSet {α : Type} (d : Dict α) (k : String) (v : α) :
    (dictSet d k v).map Prod.fst =
      if k ∈ d.map Prod.fst then d.map Prod.fst else d.map Prod.fst ++ [k] := by
  induction d with
  | nil => simp [dictSet]
  | cons p rest ih =>
    simp only [dictSet]
    by_cases h : p.1 = k
    · simp [h]
    · simp only [if_neg h, List.map_cons, ih]
      by_cases hk : k ∈ rest.map Prod.fst
      · rw [if_pos hk, if_pos (List.mem_cons_of_mem p.1 hk)]
      · have hnm : ¬ k ∈ p.1 :: rest.map Prod.fst := by
          intro hmem
          rcases List.mem_cons.mp hmem with h1 | h2
          · exact h h1.symm
          · exact hk h2
        rw [if_neg hk, if_neg hnm]
        rfl

lemma nodup_keys_dictSet {α : Type} (d : Dict α) (k : String) (v : α)
    (h : (d.map Prod.fst).Nodup) : ((dictSet d k v).map Prod.fst).Nodup := by
  rw [map_fst_dictSet]
  by_cases hk : k ∈ d.map Prod.fst
  · simpa [hk]
  · rw [if_neg hk]
    exact List.Nodup.append h (List.nodup_singleton k) (by simpa using hk)

lemma mem_dictSet {α : Type} (d : Dict α) (k : String) (v : α) :
    ∀ q ∈ dictSet d k v, q = (k, v) ∨ q ∈ d := by
  induction d with
  | nil => simp [dictSet]
  | cons p rest ih =>
    simp only [dictSet]
    intro q hq
    by_cases h : p.1 = k
    · rw [if_pos h] at hq
      rcases List.mem_cons.mp hq with rfl | hmem
      · exact Or.inl rfl
      · exact Or.inr (List.mem_cons_of_mem p hmem)
    · rw [if_neg h] at hq
      rcases List.mem_cons.mp hq with rfl | hmem
      · exact Or.inr (List.mem_cons_self q rest)
      · rcases ih q hmem with h1 | h2
        · exact Or.inl h1
        · exact Or.inr (List.mem_cons_of_mem p h2)

lemma mkBody_ok {row : Row} {nru nen : String} {b : Record}
    (h : mkBody row nru nen = .ok b) :
    ∃ rot orb, parse_period row.rotation_period = .ok rot ∧
      parse_period row.orbital_period = .ok orb ∧
      b = bodyFields row nru nen rot orb := by
  cases hrot : parse_period row.rotation_period with
  | error e => simp [mkBody, hrot] at h
  | ok rot =>
    cases horb : parse_period row.orbital_period with
    | error e => simp [mkBody, hrot, horb] at h
    | ok orb =>
      simp only [mkBody, hrot, horb, Except.ok.injEq] at h
      exact ⟨rot, orb, rfl, rfl, h.symm⟩

/-- The fixed key list of a row-built `body` dict. -/
def bodyKeys : List String := ["id", "name", "name_en", "type", "parent", "radius_km",
  "diameter_km", "atmosphere_pressure_bar", "rotation_period_days", "orbital_period_days",
  "min_temp_c", "max_temp_c", "terminator_temp_c", "terminator_width_km"]

lemma bodyFields_map_fst (row : Row) (nru nen : String) (rot orb : Option ℚ) :
    (bodyFields row nru nen rot orb).map Prod.fst = bodyKeys := rfl

lemma lookup_bodyFields_id (row : Row) (nru nen : String) (rot orb : Option ℚ) :
    lookup (bodyFields row nru nen rot orb) "id" = some (.str nen) := by
  simp [bodyFields, lookup, List.find?]

lemma lookup_bodyFields_radius (row : Row) (nru nen : String) (rot orb : Option ℚ) :
    lookup (bodyFields row nru nen rot orb) "radius_km" =
      some (match row.diameter_km with | some d => .num (d / 2) | none => .null) := by
  simp [bodyFields, lookup, List.find?]

lemma lookup_bodyFields_atm (row : Row) (nru nen : String) (rot orb : Option ℚ) :
    lookup (bodyFields row nru nen rot orb) "atmosphere_pressure_bar" =
      some (numOrZero row.atmosphere_pressure_bar) := by
  simp [bodyFields, lookup, List.find?]

lemma lookup_bodyFields_parent (row : Row) (nru nen : String) (rot orb : Option ℚ) :
    lookup (bodyFields row nru nen rot orb) "parent" =
      some (match get_parent row with | some p => .str p | none => .null) := by
  simp [bodyFields, lookup, List.find?]

lemma lookup_bodyFields_type (row : Row) (nru nen : String) (rot orb : Option ℚ) :
    lookup (bodyFields row nru nen rot orb) "type" =
      some (.str (
        if nen = "sun" then "star"
        else if row.type = some "Планета" then "planet"
        else if strContains (strOfCell row.type) "Карликовая" then "dwarf_planet"
        else "moon")) := by
  simp [bodyFields, lookup, List.find?]

lemma lookup_bodyFields_not_mem (row : Row) (nru nen : String) (rot orb : Option ℚ)
    (k : String) (hk : k ∉ bodyKeys) :
    lookup (bodyFields row nru nen rot orb) k = none := by
  rw [lookup_eq_none_iff, bodyFields_map_fst]
  exact hk

lemma orbital_keys_not_body : ∀ p ∈ orbital_params, ∀ k ∈ (p.2).map Prod.fst,
    k ∉ bodyKeys := by decide

lemma orbital_no_id : ∀ p ∈ orbital_params, "id" ∉ (p.2).map Prod.fst := by decide

/-! ### Collection invariant -/

lemma lookup_mem {α : Type} {d : Dict α} {k : String} {v : α}
    (h : lookup d k = some v) : (k, v) ∈ d := by
  unfold lookup at h
  cases hf : d.find? (fun p => p.1 = k) with
  | none => rw [hf] at h; simp at h
  | some p =>
    rw [hf] at h
    simp at h
    have hmem := List.mem_of_find?_eq_some hf
    have hpred := List.find?_some hf
    simp only [decide_eq_true_eq] at hpred
    have hp : p = (k, v) := by
      cases p
      simp only [Prod.mk.injEq]
      exact ⟨hpred, h⟩
    rwa [hp] at hmem

lemma bodyOf_ok {row : Row} {nru nen : String} {b : Record}
    (h : bodyOf row nru nen = .ok b) :
    ∃ b0, mkBody row nru nen = .ok b0 ∧
      (b = b0 ∨ ∃ e, lookup orbital_params nen = some e ∧ b = dictUpdate b0 e) := by
  cases hmk : mkBody row nru nen with
  | error e => simp [bodyOf, hmk] at h
  | ok b0 =>
    cases hl : lookup orbital_params nen with
    | none =>
      simp only [bodyOf, hmk, hl, Except.ok.injEq] at h
      exact ⟨b0, rfl, Or.inl h.symm⟩
    | some e =>
      simp only [bodyOf, hmk, hl, Except.ok.injEq] at h
      exact ⟨b0, rfl, Or.inr ⟨e, rfl, h.symm⟩⟩

/-- After the conditional merge, every one of the body's own fields
reads back exactly as `bodyFields` built it: the orbital-element keys
are disjoint from the body keys. -/
lemma bodyOf_field {row : Row} {nru nen : String} {b : Record}
    (h : bodyOf row nru nen = .ok b) (k : String) (hk : k ∈ bodyKeys) :
    ∃ rot orb, parse_period row.rotation_period = .ok rot ∧
      parse_period row.orbital_period = .ok orb ∧
      lookup b k = lookup (bodyFields row nru nen rot orb) k := by
  obtain ⟨b0, hmk, hcase⟩ := bodyOf_ok h
  obtain ⟨rot, orb, hrot, horb, hb0⟩ := mkBody_ok hmk
  refine ⟨rot, orb, hrot, horb, ?_⟩
  rcases hcase with rfl | ⟨e, he, rfl⟩
  · rw [hb0]
  · rw [← hb0]
    apply lookup_dictUpdate_not_mem
    intro hmem
    exact orbital_keys_not_body (nen, e) (lookup_mem he) k hmem hk

/-- The canonical identifier stored in a record's `id` field. -/
def recordIdOf (r : Record) : String :=
  match lookup r "id" with
  | some (.str i) => i
  | _ => ""

/-- Invariant of the in-progress collection: keys are distinct, and
every stored record carries a string `id` whose upper-casing is its
storage key. -/
def GoodDb (db : Collection) : Prop :=
  (db.map Prod.fst).Nodup ∧
    ∀ p ∈ db, lookup p.2 "id" = some (.str (recordIdOf p.2)) ∧
      pyUpper (recordIdOf p.2) = p.1

lemma goodDb_nil : GoodDb [] := ⟨List.nodup_nil, by simp⟩

lemma goodDb_dictSet {db : Collection} {k : String} {r : Record}
    (hg : GoodDb db) (hid : lookup r "id" = some (.str (recordIdOf r)))
    (hup : pyUpper (recordIdOf r) = k) : GoodDb (dictSet db k r) := by
  refine ⟨nodup_keys_dictSet db k r hg.1, ?_⟩
  intro p hp
  rcases mem_dictSet db k r p hp with rfl | hmem
  · exact ⟨hid, hup⟩
  · exact hg.2 p hmem

lemma processRow_good {db : Collection} {row : Row} {db' : Collection}
    (hg : GoodDb db) (h : processRow db row = .ok db') : GoodDb db' := by
  cases hname : row.name with
  | none =>
    unfold processRow at h
    rw [hname] at h
    cases h
    exact hg
  | some name_ru =>
    simp only [processRow, hname] at h
    by_cases h1 : strContains name_ru "Примечания"
    · rw [if_pos h1] at h
      cases h
      exact hg
    · rw [if_neg h1] at h
      by_cases h2 : footnoteMarkers.any (fun c => strContains name_ru c)
      · rw [if_pos h2] at h
        cases h
        exact hg
      · rw [if_neg h2] at h
        cases hb : bodyOf row name_ru (nameEnOf name_ru) with
        | error e => rw [hb] at h; cases h
        | ok body =>
          rw [hb] at h
          cases h
          obtain ⟨rot, orb, hrot, horb, hfield⟩ :=
            bodyOf_field hb "id" (by simp [bodyKeys])
          have hid : lookup body "id" = some (.str (nameEnOf name_ru)) := by
            rw [hfield, lookup_bodyFields_id]
          have hrid : recordIdOf body = nameEnOf name_ru := by
            rw [recordIdOf, hid]
          exact goodDb_dictSet hg (by rw [hid, hrid]) (by rw [hrid])

lemma processRows_good {db : Collection} {rows : List Row} {db' : Collection}
    (hg : GoodDb db) (h : processRows db rows = .ok db') : GoodDb db' := by
  induction rows generalizing db with
  | nil =>
    simp only [processRows, Except.ok.injEq] at h
    rwa [← h]
  | cons row rest ih =>
    simp only [processRows] at h
    cases hp : processRow db row with
    | error e => rw [hp] at h; cases h
    | ok db1 =>
      rw [hp] at h
      exact ih (processRow_good hg hp) h

lemma celestial_bodies_good {rows : List Row} {db : Collection}
    (h : celestial_bodies rows = .ok db) : GoodDb db := by
  unfold celestial_bodies at h
  cases hp : processRows [] rows with
  | error e => rw [hp] at h; cases h
  | ok db0 =>
    rw [hp] at h
    cases h
    have hg := processRows_good goodDb_nil hp
    apply goodDb_dictSet hg
    · rfl
    · decide

lemma goodDb_ids_nodup {db : Collection} (hg : GoodDb db) :
    (db.map (fun p => recordIdOf p.2)).Nodup := by
  have hmap : (db.map (fun p => recordIdOf p.2)).map pyUpper = db.map Prod.fst := by
    rw [List.map_map]
    apply List.map_congr_left
    intro p hp
    exact (hg.2 p hp).2
  have hnd := hg.1
  rw [← hmap] at hnd
  exact hnd.of_map

/-! ### JSON serialization -/

/-- A JSON value, the shape of the document written by `json.dump`. -/
inductive Json where
  | str : String → Json
  | num : ℚ → Json
  | bool : Bool → Json
  | null : Json
  | obj : List (String × Json) → Json
deriving Repr

/-- Serialization of one Python value to JSON. -/
def encodeValue : Value → Json
  | .str s => .str s
  | .num q => .num q
  | .bool b => .bool b
  | .null => .null

/-- Serialization of one record to a JSON object. -/
def encodeRecord (r : Record) : Json :=
  .obj (r.map fun p => (p.1, encodeValue p.2))

/-- Serialization of the whole collection (`json.dump`): a JSON object
mapping each storage key to its record object. -/
def encodeDb (db : Collection) : Json :=
  .obj (db.map fun p => (p.1, encodeRecord p.2))

/-- Reloading one field value (`json.load`): scalar JSON values map
back to Python values; a nested object is not a record field. -/
def decodeValue : Json → Option Value
  | .str s => some (.str s)
  | .num q => some (.num q)
  | .bool b => some (.bool b)
  | .null => some .null
  | .obj _ => none

/-- Reloading a record's field list. -/
def decodeFields : List (String × Json) → Option Record
  | [] => some []
  | (k, j) :: rest =>
    match decodeValue j with
    | none => none
    | some v =>
      match decodeFields rest with
      | none => none
      | some r => some ((k, v) :: r)

/-- Reloading one record. -/
def decodeRecord : Json → Option Record
  | .obj fields => decodeFields fields
  | _ => none

/-- Reloading the collection entries. -/
def decodeEntries : List (String × Json) → Option Collection
  | [] => some []
  | (k, j) :: rest =>
    match decodeRecord j with
    | none => none
    | some r =>
      match decodeEntries rest with
      | none => none
      | some db => some ((k, r) :: db)

/-- Reloading the whole document (`json.load`). -/
def decodeDb : Json → Option Collection
  | .obj entries => decodeEntries entries
  | _ => none

lemma decodeValue_encodeValue (v : Value) : decodeValue (encodeValue v) = some v := by
  cases v <;> rfl

lemma decodeFields_encode (r : Record) :
    decodeFields (r.map fun p => (p.1, encodeValue p.2)) = some r := by
  induction r with
  | nil => rfl
  | cons p rest ih =>
    cases p with
    | mk k v =>
      simp only [List.map_cons, decodeFields, decodeValue_encodeValue, ih]

lemma decodeRecord_encodeRecord (r : Record) :
    decodeRecord (encodeRecord r) = some r := by
  simp only [encodeRecord, decodeRecord]
  exact decodeFields_encode r

lemma decodeEntries_encode (db : Collection) :
    decodeEntries (db.map fun p => (p.1, encodeRecord p.2)) = some db := by
  induction db with
  | nil => rfl
  | cons p rest ih =>
    cases p with
    | mk k r =>
      simp only [List.map_cons, decodeEntries, decodeRecord_encodeRecord, ih]

lemma decodeDb_encodeDb (db : Collection) : decodeDb (encodeDb db) = some db := by
  simp only [encodeDb, decodeDb]
  exact decodeEntries_encode db

/-! ### Field lemmas and concrete inputs -/

lemma lookup_bodyFields_diameter (row : Row) (nru nen : String) (rot orb : Option ℚ) :
    lookup (bodyFields row nru nen rot orb) "diameter_km" =
      some (numOrNull row.diameter_km) := by
  simp [bodyFields, lookup, List.find?]

lemma lookup_bodyFields_rot (row : Row) (nru nen : String) (rot orb : Option ℚ) :
    lookup (bodyFields row nru nen rot orb) "rotation_period_days" =
      some (numOrNull rot) := by
  simp [bodyFields, lookup, List.find?]

lemma lookup_bodyFields_orb (row : Row) (nru nen : String) (rot orb : Option ℚ) :
    lookup (bodyFields row nru nen rot orb) "orbital_period_days" =
      some (numOrNull orb) := by
  simp [bodyFields, lookup, List.find?]

lemma lookup_bodyFields_min_temp (row : Row) (nru nen : String) (rot orb : Option ℚ) :
    lookup (bodyFields row nru nen rot orb) "min_temp_c" =
      some (numOrNull row.min_temp_c) := by
  simp [bodyFields, lookup, List.find?]

lemma lookup_bodyFields_max_temp (row : Row) (nru nen : String) (rot orb : Option ℚ) :
    lookup (bodyFields row nru nen rot orb) "max_temp_c" =
      some (numOrNull row.max_temp_c) := by
  simp [bodyFields, lookup, List.find?]

lemma lookup_bodyFields_term_temp (row : Row) (nru nen : String) (rot orb : Option ℚ) :
    lookup (bodyFields row nru nen rot orb) "terminator_temp_c" =
      some (numOrNull row.terminator_temp_c) := by
  simp [bodyFields, lookup, List.find?]

lemma lookup_bodyFields_term_width (row : Row) (nru nen : String) (rot orb : Option ℚ) :
    lookup (bodyFields row nru nen rot orb) "terminator_width_km" =
      some (numOrNull row.terminator_width_km) := by
  simp [bodyFields, lookup, List.find?]

/-- The collection produced by a successful run (the run is known to
succeed on every table used below). -/
def runDb (rows : List Row) : Collection := ((celestial_bodies rows).toOption).getD []

/-- A row holding only a name cell. -/
def nameOnlyRow (n : String) : Row := ⟨some n, none, none, none, none, none, none, none, none, none⟩

/-- A completely empty source row. -/
def rowBlank : Row := ⟨none, none, none, none, none, none, none, none, none, none⟩

/-- A footnote row as named by the spec's test. -/
def rowNote : Row := nameOnlyRow "1. Примечание"

/-- A row whose name is the bare marker `9.`. -/
def rowNine : Row := nameOnlyRow "9."

/-- A row whose name contains the skip keyword `Примечания`. -/
def rowPrimech : Row := nameOnlyRow "Примечания"

/-- A body row with a category text that none of the parent/type rules
recognise. -/
def rowCeres : Row := ⟨some "Ceres", some "Астероид", none, none, none, none, none, none, none, none⟩

/-- The Earth row of the demonstration table. -/
def demoEarthRow : Row := ⟨some "Земля", some "Планета", none, none, none, none, none, none, none, none⟩

/-- The Moon row of the demonstration table. -/
def demoMoonRow : Row := ⟨some "Луна", some "Спутник Земли", none, none, none, none, none, none, none, none⟩

/-- A small demonstration table: one planet and one of its moons. -/
def demoRows : List Row := [demoEarthRow, demoMoonRow]

/-- A diameter-bearing row for the halving rule. -/
def c5row : Row := ⟨some "Тест", none, some 12742, none, none, none, none, none, none, none⟩

/-- The claim's skip test, built from the spec's own words: the name
text contains a decimal digit immediately followed by a period. -/
def specDigitDot (s : String) : Bool :=
  (s.toList.zip s.toList.tail).any fun p => p.1.isDigit && p.2 = '.'

/-- The parent invariant at one record, relative to a collection: the
`parent` field is a string that is either `sun` or the `id` of some
record of the collection. -/
def parentOkIn (db : Collection) (r : Record) : Bool :=
  match lookup r "parent" with
  | some (.str q) => (q == "sun") || db.any fun p2 => decide (lookup p2.2 "id" = some (.str q))
  | _ => false

/-! ### Claim theorems -/

/-- C1: checking the unit-priority description of `parse_period` on
the spec's examples.  The branch order (hour, day, year, month) is as
claimed, and `"24 часа"`, `"365.25 дней"` and `"1 месяц"` evaluate as
claimed; but `"1 год"` returns `1.0`, not `365.25`: the single-letter
day marker `"д"` is a substring of `"год"`, so the day branch fires
and the `"год"` test of the year branch is unreachable.  The year
branch is reachable only through `"лет"`, as the last conjunct shows. -/
theorem c1_parse_period_unit_examples :
    parse_period (some "24 часа") = .ok (some 1) ∧
    parse_period (some "365.25 дней") = .ok (some (365.25 : ℚ)) ∧
    parse_period (some "1 месяц") = .ok (some (30.44 : ℚ)) ∧
    parse_period (some "1 год") = .ok (some 1) ∧
    parse_period (some "12 лет") = .ok (some (4383 : ℚ)) := by
  refine ⟨?_, ?_, ?_, ?_, ?_⟩
  · have h1 : findNumbers "24 часа" = ["24"] := by decide
    have hp : pyFloatParts "24" = some (24, 0, 0) := by decide
    have h2 : pyFloat "24" = some 24 := by rw [pyFloat, hp]; norm_num
    have h3 : strContains "24 часа" "час" = true := by decide
    simp only [parse_period, h1, h2, h3, Bool.true_or, if_true]
    norm_num
  · have h1 : findNumbers "365.25 дней" = ["365.25"] := by decide
    have hp : pyFloatParts "365.25" = some (365, 25, 2) := by decide
    have h2 : pyFloat "365.25" = some (365.25 : ℚ) := by rw [pyFloat, hp]; norm_num
    have h3 : strContains "365.25 дней" "час" = false := by decide
    have h4 : strContains "365.25 дней" "ч" = false := by decide
    have h5 : strContains "365.25 дней" "дней" = true := by decide
    simp only [parse_period, h1, h2, h3, h4, h5, Bool.false_or, Bool.true_or, if_true,
      Bool.false_eq_true, if_false]
  · have h1 : findNumbers "1 месяц" = ["1"] := by decide
    have hp : pyFloatParts "1" = some (1, 0, 0) := by decide
    have h2 : pyFloat "1" = some 1 := by rw [pyFloat, hp]; norm_num
    have h3 : strContains "1 месяц" "час" = false := by decide
    have h4 : strContains "1 месяц" "ч" = false := by decide
    have h5 : strContains "1 месяц" "дней" = false := by decide
    have h6 : strContains "1 месяц" "суток" = false := by decide
    have h7 : strContains "1 месяц" "д" = false := by decide
    have h8 : strContains "1 месяц" "лет" = false := by decide
    have h9 : strContains "1 месяц" "год" = false := by decide
    have h10 : strContains "1 месяц" "месяц" = true := by decide
    simp only [parse_period, h1, h2, h3, h4, h5, h6, h7, h8, h9, h10, Bool.false_or,
      Bool.true_or, if_true, Bool.false_eq_true, if_false, Bool.or_self]
    norm_num
  · have h1 : findNumbers "1 год" = ["1"] := by decide
    have hp : pyFloatParts "1" = some (1, 0, 0) := by decide
    have h2 : pyFloat "1" = some 1 := by rw [pyFloat, hp]; norm_num
    have h3 : strContains "1 год" "час" = false := by decide
    have h4 : strContains "1 год" "ч" = false := by decide
    have h5 : strContains "1 год" "д" = true := by decide
    simp only [parse_period, h1, h2, h3, h4, h5, Bool.false_or, Bool.true_or, Bool.or_true,
      if_true, Bool.false_eq_true, if_false]
  · have h1 : findNumbers "12 лет" = ["12"] := by decide
    have hp : pyFloatParts "12" = some (12, 0, 0) := by decide
    have h2 : pyFloat "12" = some 12 := by rw [pyFloat, hp]; norm_num
    have h3 : strContains "12 лет" "час" = false := by decide
    have h4 : strContains "12 лет" "ч" = false := by decide
    have h5 : strContains "12 лет" "дней" = false := by decide
    have h6 : strContains "12 лет" "суток" = false := by decide
    have h7 : strContains "12 лет" "д" = false := by decide
    have h8 : strContains "12 лет" "лет" = true := by decide
    simp only [parse_period, h1, h2, h3, h4, h5, h6, h7, h8, Bool.false_or, Bool.true_or,
      if_true, Bool.false_eq_true, if_false, Bool.or_self]
    norm_num

/-- C2: blank or numberless inputs do give the absence marker, but
`parse_period` is not total on text inputs: the regex `[\d.]+` also
matches bare dots, so on `"."` (first match `"."`) and on
`"1.2.3 дней"` (first match `"1.2.3"`) the call `float(numbers[0])`
raises `ValueError`. -/
theorem c2_parse_period_absence_and_error :
    parse_period none = .ok none ∧
    parse_period (some "") = .ok none ∧
    parse_period (some "год") = .ok none ∧
    parse_period (some ".") = .error () ∧
    parse_period (some "1.2.3 дней") = .error () := by
  refine ⟨by decide, by decide, by decide, by decide, by decide⟩

/-- C3 (counterexample): merging a reference-table entry into a record
holding the same key keeps the ENTRY's value, not the record's: after
`body.update` with the earth entry, the key `semi_major_axis` no
longer holds the record's own previous value. -/
theorem c3_counterexample :
    ¬ lookup (dictUpdate [("semi_major_axis", Value.str "from-record")]
        ((lookup orbital_params "earth").getD [])) "semi_major_axis" =
      some (Value.str "from-record") := by decide

/-- C3 (amended): the merge is additive, but on a key collision the
reference-table entry's value wins (Python `dict.update`); in the
program no collision can occur, because every reference-table key is
outside the fixed key list of a row-built record. -/
theorem c3_merge_semantics :
    (∀ (body entry : Dict Value) (k : String) (v : Value),
      (entry.map Prod.fst).Nodup → lookup entry k = some v →
        lookup (dictUpdate body entry) k = some v) ∧
    (∀ (body entry : Dict Value) (k : String),
      k ∉ entry.map Prod.fst →
        lookup (dictUpdate body entry) k = lookup body k) ∧
    (∀ p ∈ orbital_params, ∀ k ∈ (p.2).map Prod.fst, k ∉ bodyKeys) ∧
    (∀ (row : Row) (nru nen : String) (rot orb : Option ℚ),
      (bodyFields row nru nen rot orb).map Prod.fst = bodyKeys) :=
  ⟨fun body entry k v hnd h => lookup_dictUpdate_mem entry body k v hnd h,
    fun body entry k h => lookup_dictUpdate_not_mem entry body k h,
    orbital_keys_not_body,
    bodyFields_map_fst⟩

/-- C3 witness: the collision and no-collision cases of the amended
merge semantics at concrete dictionaries. -/
theorem c3_merge_semantics_witness :
    lookup (dictUpdate [("a", Value.str "old")] [("a", Value.str "new")]) "a" =
        some (Value.str "new") ∧
    lookup (dictUpdate [("a", Value.str "old")] [("b", Value.str "new")]) "a" =
        some (Value.str "old") :=
  ⟨c3_merge_semantics.1 [("a", Value.str "old")] [("a", Value.str "new")] "a"
      (Value.str "new") (by decide) (by decide),
    by
      rw [c3_merge_semantics.2.1 [("a", Value.str "old")] [("b", Value.str "new")] "a"
        (by decide)]
      decide⟩

/-- C4 (counterexample): the name `"9."` contains a digit immediately
followed by a period, yet its row is kept and produces an output
record: the code tests only the markers `"1."` through `"8."`. -/
theorem c4_counterexample :
    specDigitDot "9." = true ∧ (lookup (runDb [rowNine]) "9.").isSome = true := by
  refine ⟨by decide, by decide⟩

/-- C4 (amended): a row is skipped exactly when its name cell is
blank, or its name contains `"Примечания"`, or its name contains one
of the markers `"1."` ... `"8."`; in particular the row named
`"1. Примечание"` contributes nothing, and the output of a run on
that single row is just the Sun record.  A digit `9` or `0` followed
by a period does not by itself exclude a row. -/
theorem c4_skip_rule :
    (∀ (db : Collection) (row : Row), row.name = none → processRow db row = .ok db) ∧
    (∀ (db : Collection) (row : Row) (n : String), row.name = some n →
      strContains n "Примечания" = true → processRow db row = .ok db) ∧
    (∀ (db : Collection) (row : Row) (n : String), row.name = some n →
      footnoteMarkers.any (fun c => strContains n c) = true → processRow db row = .ok db) ∧
    (∀ (db : Collection) (row : Row) (n : String) (b : Record), row.name = some n →
      strContains n "Примечания" = false →
      footnoteMarkers.any (fun c => strContains n c) = false →
      bodyOf row n (nameEnOf n) = .ok b →
      processRow db row = .ok (dictSet db (pyUpper (nameEnOf n)) b)) ∧
    runDb [rowNote] = [("SUN", sunRecord)] := by
  refine ⟨?_, ?_, ?_, ?_, rfl⟩
  · intro db row h
    unfold processRow
    rw [h]
  · intro db row n h hc
    simp only [processRow, h, hc, if_true]
  · intro db row n h hm
    cases hc : strContains n "Примечания" with
    | true => simp only [processRow, h, hc, if_true]
    | false =>
      simp only [processRow, h, hc, hm, Bool.false_eq_true, if_false, if_true]
  · intro db row n b h hc hm hb
    simp only [processRow, h, hc, hm, Bool.false_eq_true, if_false, hb]

/-- C4 witness: the three skip conditions exercised on concrete rows
(blank name, a name containing `Примечания`, the spec's footnote row). -/
theorem c4_skip_rule_witness :
    processRow [] rowBlank = .ok [] ∧
    processRow [] rowPrimech = .ok [] ∧
    processRow [] rowNote = .ok [] :=
  ⟨c4_skip_rule.1 [] rowBlank rfl,
    c4_skip_rule.2.1 [] rowPrimech "Примечания" rfl (by decide),
    c4_skip_rule.2.2.1 [] rowNote "1. Примечание" rfl (by decide)⟩

/-- C5: for every row-derived record (also after the orbital-element
merge), `radius_km` is half of `diameter_km` when the diameter cell is
present, and the absence marker when it is missing; `diameter_km`
itself passes through unchanged. -/
theorem c5_radius_half_diameter :
    ∀ (row : Row) (nru nen : String) (b : Record), bodyOf row nru nen = .ok b →
      ((∀ d : ℚ, row.diameter_km = some d →
          lookup b "radius_km" = some (.num (d / 2)) ∧
          lookup b "diameter_km" = some (.num d)) ∧
        (row.diameter_km = none → lookup b "radius_km" = some .null ∧
          lookup b "diameter_km" = some .null)) := by
  intro row nru nen b h
  obtain ⟨rot, orb, hrot, horb, hfield⟩ := bodyOf_field h "radius_km" (by simp [bodyKeys])
  obtain ⟨rot2, orb2, hrot2, horb2, hfield2⟩ := bodyOf_field h "diameter_km" (by simp [bodyKeys])
  constructor
  · intro d hd
    constructor
    · rw [hfield, lookup_bodyFields_radius, hd]
    · rw [hfield2, lookup_bodyFields_diameter, hd]
      rfl
  · intro hd
    constructor
    · rw [hfield, lookup_bodyFields_radius, hd]
    · rw [hfield2, lookup_bodyFields_diameter, hd]
      rfl

/-- C5 witness: a concrete row with `diameter_km = 12742` yields
`radius_km = 6371`. -/
theorem c5_radius_half_diameter_witness :
    lookup ((bodyOf c5row "Тест" "test").toOption.getD []) "radius_km" =
      some (.num (6371 : ℚ)) := by
  have h := ((c5_radius_half_diameter c5row "Тест" "test" _ rfl).1 12742 rfl).1
  have e : (12742 : ℚ) / 2 = 6371 := by norm_num
  rw [e] at h
  exact h

/-- C6 (counterexample): a kept row whose category text matches no
rule (`"Астероид"`) produces a record typed `moon` with a null
`parent`, so the parent invariant is not a consequence of the
transform alone. -/
theorem c6_counterexample :
    lookup ((lookup (runDb [rowCeres]) "CERES").getD []) "type" = some (.str "moon") ∧
    lookup ((lookup (runDb [rowCeres]) "CERES").getD []) "parent" = some .null := by
  refine ⟨by decide, by decide⟩

/-- C6 (amended): a row whose category text is exactly `"Планета"` or
`"Карликовая планета"` gets parent `sun`; any parent the resolver
produces is the star or one of the seven hard-wired planet
identifiers; and on a table whose moon rows carry recognised markers
with their planets present (the demonstration table), every non-star
record of the completed output has a parent that is `sun` or another
record's `id`. -/
theorem c6_parent_rule :
    (∀ row : Row, row.type = some "Планета" ∨ row.type = some "Карликовая планета" →
      get_parent row = some "sun") ∧
    (∀ (row : Row) (p : String), get_parent row = some p →
      p ∈ ["earth", "mars", "jupiter", "saturn", "uranus", "neptune", "pluto", "sun"]) ∧
    ((runDb demoRows).all fun p =>
      decide (lookup p.2 "type" = some (.str "star")) || parentOkIn (runDb demoRows) p.2) = true := by
  refine ⟨?_, ?_, by decide⟩
  · intro row h
    rcases h with h | h <;> simp +decide [get_parent, h, strOfCell]
  · intro row p h
    unfold get_parent at h
    dsimp only at h
    split_ifs at h <;> simp_all

/-- C6 witness: the parent rules exercised on the demonstration rows:
the Earth row resolves to `sun`, and the Moon row's parent is one of
the hard-wired planet identifiers. -/
theorem c6_parent_rule_witness :
    get_parent demoEarthRow = some "sun" ∧
    "earth" ∈ ["earth", "mars", "jupiter", "saturn", "uranus", "neptune", "pluto", "sun"] :=
  ⟨c6_parent_rule.1 demoEarthRow (Or.inl rfl),
    c6_parent_rule.2.1 demoMoonRow "earth" (by decide)⟩

/-- C7 (counterexample): the hand-authored Sun record is in every
completed output, and it has NO `atmosphere_pressure_bar` field at
all, so not every output record carries that numeric field. -/
theorem c7_counterexample :
    lookup (runDb []) "SUN" = some sunRecord ∧
    lookup sunRecord "atmosphere_pressure_bar" = none ∧
    ¬ ∃ q : ℚ, lookup sunRecord "atmosphere_pressure_bar" = some (.num q) := by
  refine ⟨rfl, by decide, ?_⟩
  intro ⟨q, hq⟩
  rw [show lookup sunRecord "atmosphere_pressure_bar" = none from by decide] at hq
  cases hq

/-- C7 (amended): every ROW-DERIVED record carries a numeric
`atmosphere_pressure_bar`, equal to the cell when present and `0` when
the cell is absent, and the other numeric pass-through fields preserve
absence (an empty cell yields the null marker, never `0`); the
hand-authored Sun record has no `atmosphere_pressure_bar` field. -/
theorem c7_atmosphere_default :
    (∀ (row : Row) (nru nen : String) (b : Record), bodyOf row nru nen = .ok b →
      (lookup b "atmosphere_pressure_bar" = some (numOrZero row.atmosphere_pressure_bar) ∧
        (row.atmosphere_pressure_bar = none →
          lookup b "atmosphere_pressure_bar" = some (.num 0)) ∧
        (row.diameter_km = none → lookup b "diameter_km" = some .null) ∧
        (row.min_temp_c = none → lookup b "min_temp_c" = some .null) ∧
        (row.max_temp_c = none → lookup b "max_temp_c" = some .null) ∧
        (row.terminator_temp_c = none → lookup b "terminator_temp_c" = some .null) ∧
        (row.terminator_width_km = none → lookup b "terminator_width_km" = some .null) ∧
        (row.rotation_period = none → lookup b "rotation_period_days" = some .null) ∧
        (row.orbital_period = none → lookup b "orbital_period_days" = some .null))) ∧
    lookup sunRecord "atmosphere_pressure_bar" = none := by
  refine ⟨?_, by decide⟩
  intro row nru nen b h
  obtain ⟨r1, o1, hr1, ho1, f1⟩ := bodyOf_field h "atmosphere_pressure_bar" (by simp [bodyKeys])
  obtain ⟨r2, o2, hr2, ho2, f2⟩ := bodyOf_field h "diameter_km" (by simp [bodyKeys])
  obtain ⟨r3, o3, hr3, ho3, f3⟩ := bodyOf_field h "min_temp_c" (by simp [bodyKeys])
  obtain ⟨r4, o4, hr4, ho4, f4⟩ := bodyOf_field h "max_temp_c" (by simp [bodyKeys])
  obtain ⟨r5, o5, hr5, ho5, f5⟩ := bodyOf_field h "terminator_temp_c" (by simp [bodyKeys])
  obtain ⟨r6, o6, hr6, ho6, f6⟩ := bodyOf_field h "terminator_width_km" (by simp [bodyKeys])
  obtain ⟨r7, o7, hr7, ho7, f7⟩ := bodyOf_field h "rotation_period_days" (by simp [bodyKeys])
  obtain ⟨r8, o8, hr8, ho8, f8⟩ := bodyOf_field h "orbital_period_days" (by simp [bodyKeys])
  refine ⟨by rw [f1, lookup_bodyFields_atm], ?_, ?_, ?_, ?_, ?_, ?_, ?_, ?_⟩
  · intro hc
    rw [f1, lookup_bodyFields_atm, hc]
    rfl
  · intro hc
    rw [f2, lookup_bodyFields_diameter, hc]
    rfl
  · intro hc
    rw [f3, lookup_bodyFields_min_temp, hc]
    rfl
  · intro hc
    rw [f4, lookup_bodyFields_max_temp, hc]
    rfl
  · intro hc
    rw [f5, lookup_bodyFields_term_temp, hc]
    rfl
  · intro hc
    rw [f6, lookup_bodyFields_term_width, hc]
    rfl
  · intro hc
    rw [hc] at hr7
    have : r7 = none := by
      have h0 : parse_period none = .ok none := rfl
      rw [h0] at hr7
      exact (Except.ok.inj hr7).symm
    rw [f7, lookup_bodyFields_rot, this]
    rfl
  · intro hc
    rw [hc] at ho8
    have : o8 = none := by
      have h0 : parse_period none = .ok none := rfl
      rw [h0] at ho8
      exact (Except.ok.inj ho8).symm
    rw [f8, lookup_bodyFields_orb, this]
    rfl

/-- C7 witness: a fully empty row yields `atmosphere_pressure_bar = 0`
and a null `diameter_km`. -/
theorem c7_atmosphere_default_witness :
    lookup ((bodyOf rowBlank "x" "x").toOption.getD []) "atmosphere_pressure_bar" =
      some (.num 0) ∧
    lookup ((bodyOf rowBlank "x" "x").toOption.getD []) "diameter_km" = some .null :=
  ⟨(c7_atmosphere_default.1 rowBlank "x" "x" _ rfl).2.1 rfl,
    (c7_atmosphere_default.1 rowBlank "x" "x" _ rfl).2.2.1 rfl⟩

/-- C8: on every input table, a successful run yields a collection in
which the records' `id` values are pairwise distinct: each record's
storage key is the upper-casing of its `id`, and storage keys are
unique by construction. -/
theorem c8_unique_ids :
    ∀ (rows : List Row) (db : Collection), celestial_bodies rows = .ok db →
      (db.map fun p => recordIdOf p.2).Nodup :=
  fun _ _ h => goodDb_ids_nodup (celestial_bodies_good h)

/-- C8 witness: distinct ids on the demonstration table's output. -/
theorem c8_unique_ids_witness :
    ((runDb demoRows).map fun p => recordIdOf p.2).Nodup :=
  c8_unique_ids demoRows (runDb demoRows) rfl

/-- C9: serializing a completed collection to the JSON document tree
and reloading it yields exactly the original collection (numbers are
modelled as exact rationals, so this is equality modulo JSON numeric
representation). -/
theorem c9_roundtrip :
    ∀ (rows : List Row) (db : Collection), celestial_bodies rows = .ok db →
      decodeDb (encodeDb db) = some db :=
  fun _ db _ => decodeDb_encodeDb db

/-- C9 witness: the round trip on the demonstration table's output. -/
theorem c9_roundtrip_witness :
    decodeDb (encodeDb (runDb demoRows)) = some (runDb demoRows) :=
  c9_roundtrip demoRows (runDb demoRows) rfl

/-- C10: a row whose name text contains `"Примечания"` is dropped by
the loop regardless of any other condition: processing it leaves the
collection unchanged. -/
theorem c10_primechaniya_skip :
    ∀ (db : Collection) (row : Row) (n : String), row.name = some n →
      strContains n "Примечания" = true → processRow db row = .ok db := by
  intro db row n h hc
  simp only [processRow, h, hc, if_true]

/-- C10 witness: the skip at the concrete name `"Примечания"`. -/
theorem c10_primechaniya_skip_witness :
    processRow [] rowPrimech = .ok [] :=
  c10_primechaniya_skip [] rowPrimech "Примечания" rfl (by decide)

end SolarSystem
